import Mathlib

/-!
Verification of the Companies House MCP gateway: a shallow embedding of the
JSON-RPC dispatcher, the tool registry, the HTTP facade routes and the two
stdio-to-HTTP bridge clients, together with proofs of the specified
protocol properties (id echo, notification silence, tool-catalogue shape,
unknown-method and unknown-tool handling, retry/backoff behaviour and the
service-layer payload handling).

Upstream I/O (axios calls) is modelled by explicit oracle functions: an
oracle maps the call arguments (and, in the retry loop, the attempt index)
to either a parsed JSON payload or an error message, exactly the two
outcomes the try/catch of the source distinguishes.
-/

/-- A parsed JSON value, the result of a successful JSON.parse. -/
inductive JVal where
  | null
  | bool (b : Bool)
  | num (n : Int)
  | str (s : String)
  | arr (elems : List JVal)
  | obj (fields : List (String × JVal))

/-- Field lookup in a JSON object field list (JS property read on the parsed object). -/
def lookupField : List (String × JVal) → String → Option JVal
  | [], _ => none
  | (k, v) :: rest, key => if k == key then some v else lookupField rest key

/-- JS property read `v[key]` on a parsed JSON value, when `v` is known to be
an object or the read is guarded: `none` models the JS `undefined`. -/
def JVal.lookup : JVal → String → Option JVal
  | .obj fields, key => lookupField fields key
  | _, _ => none

/-- JS property read `v[key]` including the throwing case: reading a property
of `null` raises a TypeError (caught by the surrounding try/catch in the
source); any other non-object base yields `undefined`. -/
def JVal.member : JVal → String → Except String (Option JVal)
  | .null, key => .error ("TypeError: Cannot read properties of null (reading \x27" ++ key ++ "\x27)")
  | .obj fields, key => .ok (lookupField fields key)
  | _, _ => .ok none

/-- JS truthiness of a parsed JSON value (arrays and objects are always truthy). -/
def JVal.truthy : JVal → Bool
  | .null => false
  | .bool b => b
  | .num n => n != 0
  | .str s => s != ""
  | .arr _ => true
  | .obj _ => true

/-- The JS expression `a || b` where `a` is a possibly-undefined property read. -/
def jsOr (a : Option JVal) (b : JVal) : JVal :=
  match a with
  | some v => if v.truthy then v else b
  | none => b

/-- A JSON-RPC `id` value as it appears in a parsed message: the TS sources
declare `id: string | number`, but at runtime any JSON value can sit there;
`null` is the one extra case the code paths can actually produce or echo. -/
inductive JId where
  | str (s : String)
  | num (n : Int)
  | null
deriving DecidableEq

/-- Rendering of a JSON-RPC id back into the JSON value written on stdout. -/
def JId.toJVal : JId → JVal
  | .str s => JVal.str s
  | .num n => JVal.num n
  | .null => JVal.null

namespace CompaniesHouseService

/-!
`src/services/companies-house.ts` (`CompaniesHouseService`): each method
performs one axios GET (modelled by the `get` oracle argument, mapping the
request parameters to the parsed `response.data` or to a thrown error
message) and wraps any throw in a method-specific error message.
Arguments are the raw destructured JS values (`Option JVal`, `none` being
`undefined`).
-/

/-- Model of `searchCompanies`: GET /search/companies, returns `response.data` unchanged. -/
def searchCompanies (get : Option JVal → Option JVal → Except String JVal)
    (query itemsPerPage : Option JVal) : Except String JVal :=
  match get query itemsPerPage with
  | .ok data => .ok data
  | .error e => .error ("Failed to search companies: " ++ e)

/-- Model of `getCompanyProfile`: GET /company/{n}, returns `response.data` unchanged. -/
def getCompanyProfile (get : Option JVal → Except String JVal)
    (companyNumber : Option JVal) : Except String JVal :=
  match get companyNumber with
  | .ok data => .ok data
  | .error e => .error ("Failed to get company profile: " ++ e)

/-- Model of `getCompanyOfficers`: GET /company/{n}/officers, returns
`response.data.items || []`; a property read that throws (null payload) is
caught and wrapped like any other failure. -/
def getCompanyOfficers (get : Option JVal → Except String JVal)
    (companyNumber : Option JVal) : Except String JVal :=
  match get companyNumber with
  | .ok data =>
    match data.member "items" with
    | .ok it => .ok (jsOr it (JVal.arr []))
    | .error e => .error ("Failed to get company officers: " ++ e)
  | .error e => .error ("Failed to get company officers: " ++ e)

/-- Model of `getCompanyFilings`: GET /company/{n}/filing-history, returns
`response.data.items || []` with the same catch behaviour as officers. -/
def getCompanyFilings (get : Option JVal → Option JVal → Except String JVal)
    (companyNumber itemsPerPage : Option JVal) : Except String JVal :=
  match get companyNumber itemsPerPage with
  | .ok data =>
    match data.member "items" with
    | .ok it => .ok (jsOr it (JVal.arr []))
    | .error e => .error ("Failed to get company filings: " ++ e)
  | .error e => .error ("Failed to get company filings: " ++ e)

end CompaniesHouseService

/-!
The retry loop of the bridge clients, shared shape of `makeHttpRequest`
(simple-http-bridge.js) and `makeStreamableRequest`
(streamable-http-bridge): `for (attempt = 0; attempt <= MAX; attempt++)`,
on success reset the session `retryCount` to 0 and return, on failure
sleep `RECONNECT_DELAY * 2 ^ attempt` when `attempt < MAX`, otherwise
throw "Request failed after MAX+1 attempts".
-/

/-- Observable trace of one run of a bridge retry loop: the final outcome,
the number of HTTP attempts actually made, the backoff delays slept (in
order), and the session retry counter after the run. -/
structure RunTrace where
  result : Except String JVal
  attempts : Nat
  delays : List Nat
  retryCount : Nat

/-- The retry loop body, recursing over the remaining loop iterations
(`remaining` starts at `maxRetryAttempts + 1`, `attempt` at 0; the
`remaining = 0` base case is unreachable because the last iteration always
returns or throws). `upstream` maps the attempt index to the outcome
of that attempt; `rc` is the session retry counter entering the loop. -/
def retryLoopGo (upstream : Nat → Except String JVal) (maxRetryAttempts reconnectDelay : Nat)
    (rc : Nat) (attempt : Nat) : Nat → RunTrace
  | 0 => { result := .error "", attempts := 0, delays := [], retryCount := rc }
  | remaining + 1 =>
    match upstream attempt with
    | .ok resp => { result := .ok resp, attempts := 1, delays := [], retryCount := 0 }
    | .error e =>
      if attempt < maxRetryAttempts then
        let rest := retryLoopGo upstream maxRetryAttempts reconnectDelay rc (attempt + 1) remaining
        { result := rest.result, attempts := rest.attempts + 1,
          delays := reconnectDelay * 2 ^ attempt :: rest.delays, retryCount := rest.retryCount }
      else
        { result := .error ("Request failed after " ++ toString (maxRetryAttempts + 1) ++ " attempts: " ++ e),
          attempts := 1, delays := [], retryCount := rc }

/-- Model of `makeHttpRequest` of simple-http-bridge.js: the axios GET/POST dispatch
is inside the oracle; configuration `MAX_RETRY_ATTEMPTS` / `RECONNECT_DELAY`
and the session `retryCount` are passed explicitly. -/
def makeHttpRequest (upstream : Nat → Except String JVal)
    (maxRetryAttempts reconnectDelay rc : Nat) : RunTrace :=
  retryLoopGo upstream maxRetryAttempts reconnectDelay rc 0 (maxRetryAttempts + 1)

/-- Model of `makeStreamableRequest` of the streamable HTTP bridge client: identical
loop, the POST of the whole JSON-RPC envelope is inside the oracle. -/
def makeStreamableRequest (upstream : Nat → Except String JVal)
    (maxRetryAttempts reconnectDelay rc : Nat) : RunTrace :=
  retryLoopGo upstream maxRetryAttempts reconnectDelay rc 0 (maxRetryAttempts + 1)

/-! ## JSON-RPC envelope and tool catalogue -/

/-- A property entry of the `inputSchema.properties` map of a tool. -/
structure PropDesc where
  name : String
  type : String
  description : String
  default : Option Int := none

/-- The `inputSchema` of a tool. -/
structure InputSchema where
  type : String
  properties : List PropDesc
  required : List String

/-- A registered tool descriptor as serialized into `tools/list`. -/
structure Tool where
  name : String
  description : String
  inputSchema : InputSchema

/-- Look up a property of the input schema of a tool. -/
def Tool.findProp (t : Tool) (p : String) : Option PropDesc :=
  t.inputSchema.properties.find? (fun d => d.name == p)

/-- The declared default of a schema property, when the property exists and has one. -/
def Tool.schemaDefault (t : Tool) (p : String) : Option Int :=
  (t.findProp p).bind PropDesc.default

/-- The `params` of a `tools/call` request after the JS destructuring
`const { name, arguments: args } = params`. -/
structure ToolCallParams where
  name : String
  arguments : JVal

/-- A JSON-RPC error object. -/
structure RpcError where
  code : Int
  message : String

/-- The `result` payloads the dispatcher of the streamable HTTP server can build.
`content payload` stands for `{content: [{type: "text", text: s}]}` where
`s` is `JSON.stringify(payload, null, 2)`; no verified property inspects
the serialized text itself. -/
inductive RpcResult where
  | initializeInfo (protocolVersion : String) (serverName : String) (serverVersion : String)
  | toolsList (tools : List Tool)
  | content (payload : JVal)

/-- A JSON-RPC response envelope (`JSONRPCResponse` in streamable-http-server.ts). -/
structure RpcResponse where
  id : JId
  result : Option RpcResult
  error : Option RpcError

/-- An incoming parsed JSON-RPC message: `hasId` records whether the `id`
field is present at all (the sole notification/request discriminator in
every source, via the JS membership test for the id field); `id` is its
value when present. -/
structure RpcMessage where
  hasId : Bool
  id : JId
  method : String
  params : Option ToolCallParams

/-- A request proper (`JSONRPCRequest` of the streamable server). -/
structure RpcRequest where
  id : JId
  method : String
  params : Option ToolCallParams

/-- What one stdin line gives `processRequest` of a bridge: either
`JSON.parse` threw, or it produced a message. -/
inductive BridgeIn where
  | unparsable
  | msg (m : RpcMessage)

/-- The axios instance of `CompaniesHouseService` as an oracle: one field
per distinct GET the four service methods perform. -/
structure UpstreamClient where
  searchGet : Option JVal → Option JVal → Except String JVal
  profileGet : Option JVal → Except String JVal
  officersGet : Option JVal → Except String JVal
  filingsGet : Option JVal → Option JVal → Except String JVal

/-- Message of the TypeError raised by destructuring an absent object
(`const { name, arguments: args } = params` with `params` undefined). -/
def destructureParamsMsg : String :=
  "TypeError: Cannot destructure property \x27name\x27 of \x27params\x27 as it is undefined."

/-- The four tools as registered by the streamable HTTP
server, in its `tools/list` branch (streamable-http-server.ts). -/
def streamableTools : List Tool :=
  [ { name := "search_companies",
      description := "Search for UK companies by name or keyword",
      inputSchema :=
        { type := "object",
          properties :=
            [ { name := "query", type := "string",
                description := "Search query for company name or keyword" },
              { name := "items_per_page", type := "number",
                description := "Number of results to return (default: 20)",
                default := some 20 } ],
          required := ["query"] } },
    { name := "get_company_profile",
      description := "Get detailed company profile information",
      inputSchema :=
        { type := "object",
          properties :=
            [ { name := "company_number", type := "string",
                description := "Company number (e.g., 12345678)" } ],
          required := ["company_number"] } },
    { name := "get_company_officers",
      description := "Get list of company officers (directors, secretaries, etc.)",
      inputSchema :=
        { type := "object",
          properties :=
            [ { name := "company_number", type := "string",
                description := "Company number (e.g., 12345678)" } ],
          required := ["company_number"] } },
    { name := "get_company_filings",
      description := "Get company filing history",
      inputSchema :=
        { type := "object",
          properties :=
            [ { name := "company_number", type := "string",
                description := "Company number (e.g., 12345678)" },
              { name := "items_per_page", type := "number",
                description := "Number of filings to return (default: 25)",
                default := some 25 } ],
          required := ["company_number"] } } ]

namespace StreamableHTTPServer

/-!
`CompaniesHouseStreamableHTTPServer` (streamable-http-server.ts): the
JSON-RPC dispatcher behind `POST /`.
-/

/-- Shape a tool-handler outcome into the JSON-RPC envelope: the success
arm of each `case` of `handleToolCall`, and its catch-all
`Tool execution failed` error arm. -/
def toolOutcome (id : JId) (r : Except String JVal) : RpcResponse :=
  match r with
  | .ok payload => { id := id, result := some (RpcResult.content payload), error := none }
  | .error e =>
    { id := id, result := none,
      error := some { code := -32603, message := "Tool execution failed: " ++ e } }

/-- Model of `handleToolCall(id, params)`: destructures `params`, switches on the
tool name, invokes the matching `CompaniesHouseService` method (argument
extraction with the JS parameter defaults 20/25), and never lets a handler
failure escape as anything but an error envelope. An absent `params`
makes the destructuring throw; the throw lands in the outer
catch of `handleRequest`, which also produces a -32603 envelope with the
same id. -/
def handleToolCall (client : UpstreamClient) (id : JId) (params : Option ToolCallParams) :
    RpcResponse :=
  match params with
  | none => { id := id, result := none, error := some { code := -32603, message := destructureParamsMsg } }
  | some p =>
    match p.name with
    | "search_companies" =>
      let query := p.arguments.lookup "query"
      let items_per_page := (p.arguments.lookup "items_per_page").getD (JVal.num 20)
      toolOutcome id (CompaniesHouseService.searchCompanies client.searchGet query (some items_per_page))
    | "get_company_profile" =>
      let company_number := p.arguments.lookup "company_number"
      toolOutcome id (CompaniesHouseService.getCompanyProfile client.profileGet company_number)
    | "get_company_officers" =>
      let company_number := p.arguments.lookup "company_number"
      toolOutcome id (CompaniesHouseService.getCompanyOfficers client.officersGet company_number)
    | "get_company_filings" =>
      let company_number := p.arguments.lookup "company_number"
      let items_per_page := (p.arguments.lookup "items_per_page").getD (JVal.num 25)
      toolOutcome id (CompaniesHouseService.getCompanyFilings client.filingsGet company_number (some items_per_page))
    | _ =>
      { id := id, result := none,
        error := some { code := -32601, message := "Unknown tool: " ++ p.name } }

/-- Model of `handleRequest(request)`: the method dispatch table of the streamable
HTTP server. -/
def handleRequest (client : UpstreamClient) (r : RpcRequest) : RpcResponse :=
  match r.method with
  | "initialize" =>
    { id := r.id,
      result := some (RpcResult.initializeInfo "2024-11-05" "companies-house-mcp-streamable" "1.0.0"),
      error := none }
  | "tools/list" =>
    { id := r.id, result := some (RpcResult.toolsList streamableTools), error := none }
  | "tools/call" => handleToolCall client r.id r.params
  | _ =>
    { id := r.id, result := none,
      error := some { code := -32601, message := "Unknown method: " ++ r.method } }

/-- The HTTP reply of the `POST /` route: 204 without a body for a
notification, otherwise 200 with the JSON-RPC response of the dispatcher. -/
inductive PostReply where
  | noContent
  | rpc (r : RpcResponse)

/-- The `POST /` route body: the id-presence discrimination
between notification handling (no content) and `handleRequest`. -/
def post (client : UpstreamClient) (m : RpcMessage) : PostReply :=
  if m.hasId then
    PostReply.rpc (handleRequest client { id := m.id, method := m.method, params := m.params })
  else
    PostReply.noContent

end StreamableHTTPServer

namespace HTTPServer

/-!
`CompaniesHouseHTTPServer` (http-server.ts): the REST facade. Its
`toolsResponse` catalogue, the `toolHandlers` map, and the routes
`GET /tools`, `POST /mcp/tools/:toolName` and `POST /mcp/bridge`.
-/

/-- The static `toolsResponse.tools` catalogue built in `setupMCPServer`
(only the officers description differs from the streamable variant). -/
def toolsResponse : List Tool :=
  [ { name := "search_companies",
      description := "Search for UK companies by name or keyword",
      inputSchema :=
        { type := "object",
          properties :=
            [ { name := "query", type := "string",
                description := "Search query for company name or keyword" },
              { name := "items_per_page", type := "number",
                description := "Number of results to return (default: 20)",
                default := some 20 } ],
          required := ["query"] } },
    { name := "get_company_profile",
      description := "Get detailed company profile information",
      inputSchema :=
        { type := "object",
          properties :=
            [ { name := "company_number", type := "string",
                description := "Company number (e.g., 12345678)" } ],
          required := ["company_number"] } },
    { name := "get_company_officers",
      description := "Get list of company officers",
      inputSchema :=
        { type := "object",
          properties :=
            [ { name := "company_number", type := "string",
                description := "Company number (e.g., 12345678)" } ],
          required := ["company_number"] } },
    { name := "get_company_filings",
      description := "Get company filing history",
      inputSchema :=
        { type := "object",
          properties :=
            [ { name := "company_number", type := "string",
                description := "Company number (e.g., 12345678)" },
              { name := "items_per_page", type := "number",
                description := "Number of filings to return (default: 25)",
                default := some 25 } ],
          required := ["company_number"] } } ]

/-- Model of `this.toolHandlers.get(name)` followed by `handler(args)`: `none` when
the name is not registered, otherwise the outcome of the handler (the payload
of the `{content: [...]}` result on success, the thrown message on
failure). Argument extraction mirrors each handler closure. -/
def runToolHandler (client : UpstreamClient) (name : String) (args : JVal) :
    Option (Except String JVal) :=
  match name with
  | "search_companies" =>
    let query := args.lookup "query"
    let items_per_page := (args.lookup "items_per_page").getD (JVal.num 20)
    some (CompaniesHouseService.searchCompanies client.searchGet query (some items_per_page))
  | "get_company_profile" =>
    let company_number := args.lookup "company_number"
    some (CompaniesHouseService.getCompanyProfile client.profileGet company_number)
  | "get_company_officers" =>
    let company_number := args.lookup "company_number"
    some (CompaniesHouseService.getCompanyOfficers client.officersGet company_number)
  | "get_company_filings" =>
    let company_number := args.lookup "company_number"
    let items_per_page := (args.lookup "items_per_page").getD (JVal.num 25)
    some (CompaniesHouseService.getCompanyFilings client.filingsGet company_number (some items_per_page))
  | _ => none

/-- The JSON bodies the facade routes can reply with. Here `toolResult payload`
stands for the handler result `{content: [{type: "text", text: stringify payload}]}`. -/
inductive BridgeBody where
  | toolsList (tools : List Tool)
  | toolResult (payload : JVal)
  | initializeInfo (protocolVersion : String) (serverName : String) (serverVersion : String)
  | errorMsg (message : String)
  | errorWithCode (message : String) (code : Int)

/-- An HTTP reply of a facade route: status code plus JSON body. -/
structure HttpReply where
  status : Nat
  body : BridgeBody

/-- The `GET /tools` route: returns the static catalogue. -/
def toolsRoute : HttpReply := { status := 200, body := BridgeBody.toolsList toolsResponse }

/-- The `POST /mcp/tools/:toolName` route: 404 `{error}` on an unregistered
name, 200 with the handler result, 500 `{error}` when the handler throws. -/
def mcpToolsRoute (client : UpstreamClient) (toolName : String) (body : JVal) : HttpReply :=
  match runToolHandler client toolName body with
  | none => { status := 404, body := BridgeBody.errorMsg ("Tool \x27" ++ toolName ++ "\x27 not found") }
  | some (.ok payload) => { status := 200, body := BridgeBody.toolResult payload }
  | some (.error e) => { status := 500, body := BridgeBody.errorMsg e }

/-- The request body of `POST /mcp/bridge` (`MCPRequest`: `id` optional and unused). -/
structure MCPRequest where
  method : String
  params : Option ToolCallParams
  id : Option JId

/-- The `POST /mcp/bridge` route: `tools/list` returns the catalogue,
`tools/call` looks up the handler (404 when missing), `initialize` returns
server metadata, and any other method throws "Unsupported method", which
the catch of the route converts to a 500 `{error, code: -32603}` body; a
handler throw lands in the same catch. -/
def mcpBridgeRoute (client : UpstreamClient) (req : MCPRequest) : HttpReply :=
  if req.method = "tools/list" then
    { status := 200, body := BridgeBody.toolsList toolsResponse }
  else if req.method = "tools/call" then
    match req.params with
    | none =>
      { status := 500, body := BridgeBody.errorWithCode destructureParamsMsg (-32603) }
    | some p =>
      match runToolHandler client p.name p.arguments with
      | none => { status := 404, body := BridgeBody.errorMsg ("Tool \x27" ++ p.name ++ "\x27 not found") }
      | some (.ok payload) => { status := 200, body := BridgeBody.toolResult payload }
      | some (.error e) => { status := 500, body := BridgeBody.errorWithCode e (-32603) }
  else if req.method = "initialize" then
    { status := 200, body := BridgeBody.initializeInfo "2024-11-05" "companies-house-mcp-http-bridge" "1.0.0" }
  else
    { status := 500,
      body := BridgeBody.errorWithCode ("Unsupported method: " ++ req.method) (-32603) }

end HTTPServer

namespace SimpleHttpBridge

/-!
`simple-http-bridge.js`: the REST-oriented stdio bridge client. One call of
`processRequest` per stdin line; the observable effects are the stdout
lines, the number of upstream HTTP attempts, the backoff delays slept and
the session `retryCount` after the call.
-/

/-- The bridge configuration (SERVER_URL, MAX_RETRY_ATTEMPTS, RECONNECT_DELAY). -/
structure BridgeConfig where
  serverUrl : String
  maxRetryAttempts : Nat
  reconnectDelay : Nat

/-- One stdout line of the bridge: always a JSON-RPC envelope
`{jsonrpc: "2.0", id, result}` or `{jsonrpc: "2.0", id, error: {code, message}}`. -/
structure BridgeOut where
  id : JId
  result : Option JVal
  error : Option RpcError

/-- The observable effects of one `processRequest` call. -/
structure BridgeEffects where
  stdout : List BridgeOut
  httpAttempts : Nat
  delays : List Nat
  retryCount : Nat

/-- The `initialize` result object the bridge answers with locally. -/
def initializeResult (serverName : String) : JVal :=
  JVal.obj
    [ ("protocolVersion", JVal.str "2024-11-05"),
      ("capabilities", JVal.obj [("tools", JVal.obj [])]),
      ("serverInfo", JVal.obj [("name", JVal.str serverName), ("version", JVal.str "1.0.0")]) ]

/-- The `bridge/status` result object. -/
def statusResult (cfg : BridgeConfig) (rc : Nat) : JVal :=
  JVal.obj
    [ ("server_url", JVal.str cfg.serverUrl),
      ("retry_count", JVal.num rc),
      ("max_retries", JVal.num cfg.maxRetryAttempts),
      ("reconnect_delay", JVal.num cfg.reconnectDelay) ]

/-- Model of `sendError(id, message, code = -32603)` as a stdout line. -/
def sendError (id : JId) (message : String) (code : Int := -32603) : BridgeOut :=
  { id := id, result := none, error := some { code := code, message := message } }

/-- Model of `processRequest(data)`: parse failure answers `sendError(null, "Invalid JSON")`;
a notification (no `id` field) is consumed silently; otherwise the method
switch (`initialize` and `bridge/status` answered locally, `tools/list` and
`tools/call` forwarded through `makeHttpRequest` with its retry loop,
unknown methods answered with code -32601). -/
def processRequest (cfg : BridgeConfig) (upstream : Nat → Except String JVal) (rc : Nat) :
    BridgeIn → BridgeEffects
  | .unparsable =>
    { stdout := [sendError JId.null "Invalid JSON"], httpAttempts := 0, delays := [], retryCount := rc }
  | .msg m =>
    if m.hasId then
      match m.method with
      | "initialize" =>
        { stdout := [{ id := m.id, result := some (initializeResult "companies-house-mcp-http-bridge"), error := none }],
          httpAttempts := 0, delays := [], retryCount := rc }
      | "tools/list" =>
        let t := makeHttpRequest upstream cfg.maxRetryAttempts cfg.reconnectDelay rc
        match t.result with
        | .ok data =>
          { stdout := [{ id := m.id, result := some data, error := none }],
            httpAttempts := t.attempts, delays := t.delays, retryCount := t.retryCount }
        | .error e =>
          { stdout := [sendError m.id ("Failed to get tools: " ++ e)],
            httpAttempts := t.attempts, delays := t.delays, retryCount := t.retryCount }
      | "tools/call" =>
        match m.params with
        | none =>
          { stdout := [sendError m.id ("Tool execution failed: " ++ destructureParamsMsg)],
            httpAttempts := 0, delays := [], retryCount := rc }
        | some _ =>
          let t := makeHttpRequest upstream cfg.maxRetryAttempts cfg.reconnectDelay rc
          match t.result with
          | .ok data =>
            { stdout := [{ id := m.id, result := some data, error := none }],
              httpAttempts := t.attempts, delays := t.delays, retryCount := t.retryCount }
          | .error e =>
            { stdout := [sendError m.id ("Tool execution failed: " ++ e)],
              httpAttempts := t.attempts, delays := t.delays, retryCount := t.retryCount }
      | "bridge/status" =>
        { stdout := [{ id := m.id, result := some (statusResult cfg rc), error := none }],
          httpAttempts := 0, delays := [], retryCount := rc }
      | _ =>
        { stdout := [sendError m.id ("Unknown method: " ++ m.method) (-32601)],
          httpAttempts := 0, delays := [], retryCount := rc }
    else
      { stdout := [], httpAttempts := 0, delays := [], retryCount := rc }

end SimpleHttpBridge

namespace StreamableBridge

/-!
The streamable HTTP bridge client (streamable-http-bridge.js): forwards
the whole JSON-RPC envelope to `POST /` of the streamable server and
writes the upstream response body verbatim on stdout, so its stdout lines
are raw JSON values.
-/

/-- The observable effects of one `processRequest` call of this bridge. -/
structure Effects where
  stdout : List JVal
  httpAttempts : Nat
  delays : List Nat
  retryCount : Nat

/-- Model of `sendError(id, message, code = -32603)` of this bridge, as the JSON
value printed on stdout. -/
def errorEnvelope (id : JId) (message : String) (code : Int := -32603) : JVal :=
  JVal.obj
    [ ("jsonrpc", JVal.str "2.0"),
      ("id", id.toJVal),
      ("error", JVal.obj [("code", JVal.num code), ("message", JVal.str message)]) ]

/-- Model of `processRequest(data)` of the streamable bridge: parse failure answers
`sendError(null, "Invalid JSON")`; a notification is silently consumed;
a request is forwarded through `makeStreamableRequest` and the upstream
body is echoed, or the retry-exhaustion error is wrapped with the
original id. -/
def processRequest (cfg : SimpleHttpBridge.BridgeConfig) (upstream : Nat → Except String JVal)
    (rc : Nat) : BridgeIn → Effects
  | .unparsable =>
    { stdout := [errorEnvelope JId.null "Invalid JSON"], httpAttempts := 0, delays := [], retryCount := rc }
  | .msg m =>
    if m.hasId then
      let t := makeStreamableRequest upstream cfg.maxRetryAttempts cfg.reconnectDelay rc
      match t.result with
      | .ok data =>
        { stdout := [data], httpAttempts := t.attempts, delays := t.delays, retryCount := t.retryCount }
      | .error e =>
        { stdout := [errorEnvelope m.id ("Streamable server request failed: " ++ e)],
          httpAttempts := t.attempts, delays := t.delays, retryCount := t.retryCount }
    else
      { stdout := [], httpAttempts := 0, delays := [], retryCount := rc }

end StreamableBridge

/-! ## Concrete fixtures for witnesses and counterexamples -/

/-- A trivially succeeding upstream client, for concrete evaluations. -/
def okClient : UpstreamClient :=
  { searchGet := fun _ _ => .ok (JVal.obj []),
    profileGet := fun _ => .ok (JVal.obj []),
    officersGet := fun _ => .ok (JVal.obj []),
    filingsGet := fun _ _ => .ok (JVal.obj []) }

/-- An upstream HTTP oracle that fails on every attempt. -/
def failingOracle : Nat → Except String JVal := fun _ => .error "connect ECONNREFUSED"

/-- A concrete bridge configuration (the source defaults). -/
def cfg0 : SimpleHttpBridge.BridgeConfig :=
  { serverUrl := "http://localhost:3000", maxRetryAttempts := 3, reconnectDelay := 2000 }

/-! ## Helper lemmas -/

theorem retryLoopGo_succ (upstream : Nat → Except String JVal) (N d rc attempt remaining : Nat) :
    retryLoopGo upstream N d rc attempt (remaining + 1) =
      match upstream attempt with
      | .ok resp => { result := .ok resp, attempts := 1, delays := [], retryCount := 0 }
      | .error e =>
        if attempt < N then
          let rest := retryLoopGo upstream N d rc (attempt + 1) remaining
          { result := rest.result, attempts := rest.attempts + 1,
            delays := d * 2 ^ attempt :: rest.delays, retryCount := rest.retryCount }
        else
          { result := .error ("Request failed after " ++ toString (N + 1) ++ " attempts: " ++ e),
            attempts := 1, delays := [], retryCount := rc } := rfl

theorem retryLoopGo_fail (upstream : Nat → Except String JVal) (msg : Nat → String)
    (hf : ∀ k, upstream k = .error (msg k)) (N d rc : Nat) :
    ∀ r attempt, attempt + r = N →
      retryLoopGo upstream N d rc attempt (r + 1) =
        { result := .error ("Request failed after " ++ toString (N + 1) ++ " attempts: " ++ msg N),
          attempts := r + 1,
          delays := (List.range r).map (fun i => d * 2 ^ (attempt + i)),
          retryCount := rc } := by
  intro r
  induction r with
  | zero =>
    intro attempt h
    have h0 : attempt = N := by omega
    subst h0
    rw [retryLoopGo_succ, hf attempt]
    simp
  | succ r ih =>
    intro attempt h
    have hlt : attempt < N := by omega
    have hrec := ih (attempt + 1) (by omega)
    rw [retryLoopGo_succ, hf attempt]
    simp only [if_pos hlt, hrec, RunTrace.mk.injEq, true_and, and_true]
    rw [List.range_succ_eq_map, List.map_cons, List.map_map]
    simp only [List.cons.injEq, Nat.add_zero, true_and]
    refine List.map_congr_left ?_
    intro i _
    have hx : attempt + 1 + i = attempt + (i + 1) := by omega
    simp [Function.comp_apply, Nat.succ_eq_add_one, hx]

theorem retryLoopGo_delays_get? (upstream : Nat → Except String JVal) (N d rc : Nat) :
    ∀ remaining attempt i v,
      (retryLoopGo upstream N d rc attempt remaining).delays.get? i = some v →
      v = d * 2 ^ (attempt + i) := by
  intro remaining
  induction remaining with
  | zero => intro attempt i v hv; simp [retryLoopGo] at hv
  | succ remaining ih =>
    intro attempt i v hv
    rw [retryLoopGo_succ] at hv
    cases hu : upstream attempt with
    | ok resp => rw [hu] at hv; simp at hv
    | error e =>
      rw [hu] at hv
      by_cases hlt : attempt < N
      · simp only [if_pos hlt] at hv
        cases i with
        | zero =>
          simp only [List.get?_cons_zero, Option.some.injEq] at hv
          rw [Nat.add_zero]
          exact hv.symm
        | succ i =>
          simp only [List.get?_cons_succ] at hv
          have hv2 := ih (attempt + 1) i v hv
          rw [hv2]
          have hx : attempt + 1 + i = attempt + (i + 1) := by omega
          rw [hx]
      · simp only [if_neg hlt] at hv
        simp at hv

theorem retryLoopGo_retryCount_zero (upstream : Nat → Except String JVal) (N d : Nat) :
    ∀ remaining attempt, (retryLoopGo upstream N d 0 attempt remaining).retryCount = 0 := by
  intro remaining
  induction remaining with
  | zero => intro attempt; simp [retryLoopGo]
  | succ remaining ih =>
    intro attempt
    rw [retryLoopGo_succ]
    cases hu : upstream attempt with
    | ok resp => rfl
    | error e =>
      by_cases hlt : attempt < N
      · simp only [if_pos hlt]
        exact ih (attempt + 1)
      · simp only [if_neg hlt]

theorem retryLoopGo_delays_rc_irrel (upstream : Nat → Except String JVal) (N d : Nat) :
    ∀ remaining attempt rc rc2,
      (retryLoopGo upstream N d rc attempt remaining).delays =
      (retryLoopGo upstream N d rc2 attempt remaining).delays := by
  intro remaining
  induction remaining with
  | zero => intro attempt rc rc2; rfl
  | succ remaining ih =>
    intro attempt rc rc2
    rw [retryLoopGo_succ, retryLoopGo_succ]
    cases hu : upstream attempt with
    | ok resp => rfl
    | error e =>
      by_cases hlt : attempt < N
      · simp only [if_pos hlt]
        rw [ih (attempt + 1) rc rc2]
      · simp only [if_neg hlt]

theorem toolOutcome_id (id : JId) (r : Except String JVal) :
    (StreamableHTTPServer.toolOutcome id r).id = id := by
  cases r <;> rfl

theorem handleToolCall_id (client : UpstreamClient) (id : JId) (params : Option ToolCallParams) :
    (StreamableHTTPServer.handleToolCall client id params).id = id := by
  cases params with
  | none => rfl
  | some p =>
    simp only [StreamableHTTPServer.handleToolCall]
    split <;> first | rfl | apply toolOutcome_id

theorem handleRequest_id (client : UpstreamClient) (r : RpcRequest) :
    (StreamableHTTPServer.handleRequest client r).id = r.id := by
  simp only [StreamableHTTPServer.handleRequest]
  split <;> first | rfl | apply handleToolCall_id

theorem handleToolCall_unknown (client : UpstreamClient) (id : JId) (p : ToolCallParams)
    (h : p.name ∉ ["search_companies", "get_company_profile", "get_company_officers", "get_company_filings"]) :
    StreamableHTTPServer.handleToolCall client id (some p) =
      { id := id, result := none,
        error := some { code := -32601, message := "Unknown tool: " ++ p.name } } := by
  obtain ⟨name, args⟩ := p
  simp only [List.mem_cons, List.not_mem_nil, or_false, not_or] at h
  simp only [StreamableHTTPServer.handleToolCall]
  split <;> simp_all

theorem handleRequest_unknown (client : UpstreamClient) (r : RpcRequest)
    (h : r.method ∉ ["initialize", "tools/list", "tools/call"]) :
    StreamableHTTPServer.handleRequest client r =
      { id := r.id, result := none,
        error := some { code := -32601, message := "Unknown method: " ++ r.method } } := by
  obtain ⟨id, method, params⟩ := r
  simp only [List.mem_cons, List.not_mem_nil, or_false, not_or] at h
  simp only [StreamableHTTPServer.handleRequest]
  split <;> simp_all

theorem simpleBridge_id_echo (cfg : SimpleHttpBridge.BridgeConfig)
    (upstream : Nat → Except String JVal) (rc : Nat) (m : RpcMessage) :
    ∀ o ∈ (SimpleHttpBridge.processRequest cfg upstream rc (.msg m)).stdout, o.id = m.id := by
  intro o ho
  obtain ⟨hasId, i, meth, ps⟩ := m
  cases hasId with
  | false => simp [SimpleHttpBridge.processRequest] at ho
  | true =>
    simp only [SimpleHttpBridge.processRequest, if_true] at ho
    split at ho <;>
      (try split at ho) <;>
      (try split at ho) <;>
      simp_all [SimpleHttpBridge.sendError]

theorem simpleBridge_unknown (cfg : SimpleHttpBridge.BridgeConfig)
    (upstream : Nat → Except String JVal) (rc : Nat) (i : JId) (meth : String)
    (ps : Option ToolCallParams)
    (h : meth ∉ ["initialize", "tools/list", "tools/call", "bridge/status"]) :
    SimpleHttpBridge.processRequest cfg upstream rc (.msg ⟨true, i, meth, ps⟩) =
      { stdout := [SimpleHttpBridge.sendError i ("Unknown method: " ++ meth) (-32601)],
        httpAttempts := 0, delays := [], retryCount := rc } := by
  simp only [List.mem_cons, List.not_mem_nil, or_false, not_or] at h
  simp only [SimpleHttpBridge.processRequest, if_true]
  split <;> simp_all

theorem mcpBridgeRoute_unknown (client : UpstreamClient) (req : HTTPServer.MCPRequest)
    (h : req.method ∉ ["initialize", "tools/list", "tools/call"]) :
    HTTPServer.mcpBridgeRoute client req =
      { status := 500,
        body := HTTPServer.BridgeBody.errorWithCode ("Unsupported method: " ++ req.method) (-32603) } := by
  simp only [List.mem_cons, List.not_mem_nil, or_false, not_or] at h
  obtain ⟨h1, h2, h3⟩ := h
  rw [HTTPServer.mcpBridgeRoute, if_neg h2, if_neg h3, if_neg h1]

/-- Claim C1 (amended): every response of the dispatcher or the simple
bridge echoes the id of the parsed request, and unparsable input yields
an id of null. -/
theorem C1_id_echo :
    (∀ (client : UpstreamClient) (r : RpcRequest),
      (StreamableHTTPServer.handleRequest client r).id = r.id) ∧
    (∀ (cfg : SimpleHttpBridge.BridgeConfig) (upstream : Nat → Except String JVal) (rc : Nat)
        (m : RpcMessage) (o : SimpleHttpBridge.BridgeOut),
      o ∈ (SimpleHttpBridge.processRequest cfg upstream rc (.msg m)).stdout → o.id = m.id) ∧
    (∀ (cfg : SimpleHttpBridge.BridgeConfig) (upstream : Nat → Except String JVal) (rc : Nat),
      (SimpleHttpBridge.processRequest cfg upstream rc .unparsable).stdout.map
        SimpleHttpBridge.BridgeOut.id = [JId.null]) :=
  ⟨handleRequest_id,
   fun cfg upstream rc m o ho => simpleBridge_id_echo cfg upstream rc m o ho,
   fun _ _ _ => rfl⟩

theorem C1_id_echo_witness :
    ({ id := JId.num 7, result := some (SimpleHttpBridge.statusResult cfg0 0), error := none } :
        SimpleHttpBridge.BridgeOut) ∈
      (SimpleHttpBridge.processRequest cfg0 failingOracle 0
        (.msg { hasId := true, id := JId.num 7, method := "bridge/status", params := none })).stdout ∧
    ({ id := JId.num 7, result := some (SimpleHttpBridge.statusResult cfg0 0), error := none } :
        SimpleHttpBridge.BridgeOut).id =
      (RpcMessage.mk true (JId.num 7) "bridge/status" none).id :=
  ⟨List.mem_singleton.mpr rfl,
   C1_id_echo.2.1 cfg0 failingOracle 0 (RpcMessage.mk true (JId.num 7) "bridge/status" none)
     { id := JId.num 7, result := some (SimpleHttpBridge.statusResult cfg0 0), error := none }
     (List.mem_singleton.mpr rfl)⟩

/-- Claim C1, original wording, is refuted: the input message parses as
JSON and carries an id field (whose value is null), yet the simple
reply of the bridge has id null — so unparsable input is not the only source
of id-null responses. -/
theorem C1_counterexample :
    (SimpleHttpBridge.processRequest cfg0 failingOracle 0
        (.msg { hasId := true, id := JId.null, method := "initialize", params := none })).stdout =
      [{ id := JId.null,
         result := some (SimpleHttpBridge.initializeResult "companies-house-mcp-http-bridge"),
         error := none }] ∧
    (RpcMessage.mk true JId.null "initialize" none).hasId = true :=
  ⟨rfl, rfl⟩

/-- Claim C2: a message without an id field (a notification) produces no
stdout line and no upstream HTTP attempt in either bridge client, and the
streamable server replies 204 No Content, whatever the method, the params
and the upstream behaviour. -/
theorem C2_notification_silence :
    ∀ (cfg : SimpleHttpBridge.BridgeConfig) (upstream : Nat → Except String JVal) (rc : Nat)
      (i : JId) (meth : String) (ps : Option ToolCallParams) (client : UpstreamClient),
      SimpleHttpBridge.processRequest cfg upstream rc (.msg ⟨false, i, meth, ps⟩) =
        { stdout := [], httpAttempts := 0, delays := [], retryCount := rc } ∧
      StreamableBridge.processRequest cfg upstream rc (.msg ⟨false, i, meth, ps⟩) =
        { stdout := [], httpAttempts := 0, delays := [], retryCount := rc } ∧
      StreamableHTTPServer.post client ⟨false, i, meth, ps⟩ = .noContent :=
  fun _ _ _ _ _ _ _ => ⟨rfl, rfl, rfl⟩

/-- Claim C3: `tools/list` always succeeds on every transport and the two
static catalogues contain exactly the 4 documented tools, in registration
order, with the documented required fields and `items_per_page` defaults
20 (search) and 25 (filings). -/
theorem C3_tool_catalogue :
    (∀ (client : UpstreamClient) (id : JId) (ps : Option ToolCallParams),
      StreamableHTTPServer.handleRequest client ⟨id, "tools/list", ps⟩ =
        { id := id, result := some (RpcResult.toolsList streamableTools), error := none }) ∧
    (∀ (client : UpstreamClient) (ps : Option ToolCallParams) (oid : Option JId),
      HTTPServer.mcpBridgeRoute client ⟨"tools/list", ps, oid⟩ =
        { status := 200, body := HTTPServer.BridgeBody.toolsList HTTPServer.toolsResponse }) ∧
    HTTPServer.toolsRoute =
      { status := 200, body := HTTPServer.BridgeBody.toolsList HTTPServer.toolsResponse } ∧
    streamableTools.map Tool.name =
      ["search_companies", "get_company_profile", "get_company_officers", "get_company_filings"] ∧
    HTTPServer.toolsResponse.map Tool.name =
      ["search_companies", "get_company_profile", "get_company_officers", "get_company_filings"] ∧
    streamableTools.map (fun t => t.inputSchema.required) =
      [["query"], ["company_number"], ["company_number"], ["company_number"]] ∧
    HTTPServer.toolsResponse.map (fun t => t.inputSchema.required) =
      [["query"], ["company_number"], ["company_number"], ["company_number"]] ∧
    streamableTools.map (fun t => t.schemaDefault "items_per_page") =
      [some 20, none, none, some 25] ∧
    HTTPServer.toolsResponse.map (fun t => t.schemaDefault "items_per_page") =
      [some 20, none, none, some 25] ∧
    streamableTools.length = 4 ∧
    HTTPServer.toolsResponse.length = 4 :=
  ⟨fun _ _ _ => rfl, fun _ _ _ => rfl, rfl, rfl, rfl, rfl, rfl, rfl, rfl, rfl, rfl⟩

/-- Claim C4 (amended): a line that fails JSON.parse makes each bridge emit
exactly one error line with id null, message "Invalid JSON" and the
default `sendError` code -32603 (not a -32700 parse-error code), with no
upstream HTTP attempt; this is the only output an unparsable line produces. -/
theorem C4_parse_error :
    ∀ (cfg : SimpleHttpBridge.BridgeConfig) (upstream : Nat → Except String JVal) (rc : Nat),
      SimpleHttpBridge.processRequest cfg upstream rc .unparsable =
        { stdout := [SimpleHttpBridge.sendError JId.null "Invalid JSON"],
          httpAttempts := 0, delays := [], retryCount := rc } ∧
      StreamableBridge.processRequest cfg upstream rc .unparsable =
        { stdout := [StreamableBridge.errorEnvelope JId.null "Invalid JSON"],
          httpAttempts := 0, delays := [], retryCount := rc } ∧
      SimpleHttpBridge.sendError JId.null "Invalid JSON" =
        { id := JId.null, result := none,
          error := some { code := -32603, message := "Invalid JSON" } } :=
  fun _ _ _ => ⟨rfl, rfl, rfl⟩

/-- Claim C4, original wording, is refuted on the error code: the parse
error response the bridge emits carries code -32603 (the `sendError`
default, internal-error class), which is not a -32700-class code. -/
theorem C4_counterexample :
    (SimpleHttpBridge.processRequest cfg0 failingOracle 0 .unparsable).stdout =
      [{ id := JId.null, result := none,
         error := some { code := -32603, message := "Invalid JSON" } }] ∧
    ¬ ((-32603 : Int) = -32700) :=
  ⟨rfl, by decide⟩

theorem runToolHandler_unknown (client : UpstreamClient) (name : String) (args : JVal)
    (h : name ∉ ["search_companies", "get_company_profile", "get_company_officers", "get_company_filings"]) :
    HTTPServer.runToolHandler client name args = none := by
  simp only [List.mem_cons, List.not_mem_nil, or_false, not_or] at h
  simp only [HTTPServer.runToolHandler]
  split <;> simp_all

/-- Claim C5: a `tools/call` naming an unregistered tool yields a not-found
class error on every transport — a -32601 JSON-RPC error with the
request id from the streamable dispatcher, and an HTTP 404 `{error}`
body from the two tool-calling routes of the facade — never a success. -/
theorem C5_unknown_tool
    (client : UpstreamClient) (id : JId) (p : ToolCallParams) (body : JVal) (oid : Option JId)
    (h : p.name ∉ ["search_companies", "get_company_profile", "get_company_officers", "get_company_filings"]) :
    StreamableHTTPServer.handleToolCall client id (some p) =
      { id := id, result := none,
        error := some { code := -32601, message := "Unknown tool: " ++ p.name } } ∧
    HTTPServer.mcpToolsRoute client p.name body =
      { status := 404,
        body := HTTPServer.BridgeBody.errorMsg ("Tool \x27" ++ p.name ++ "\x27 not found") } ∧
    HTTPServer.mcpBridgeRoute client ⟨"tools/call", some p, oid⟩ =
      { status := 404,
        body := HTTPServer.BridgeBody.errorMsg ("Tool \x27" ++ p.name ++ "\x27 not found") } := by
  refine ⟨handleToolCall_unknown client id p h, ?_, ?_⟩
  · rw [HTTPServer.mcpToolsRoute, runToolHandler_unknown client p.name body h]
  · simp [HTTPServer.mcpBridgeRoute, runToolHandler_unknown client p.name p.arguments h]

theorem C5_unknown_tool_witness :
    ("nope" : String) ∉ ["search_companies", "get_company_profile", "get_company_officers", "get_company_filings"] ∧
    (StreamableHTTPServer.handleToolCall okClient (JId.num 5) (some ⟨"nope", JVal.obj []⟩) =
      { id := JId.num 5, result := none,
        error := some { code := -32601, message := "Unknown tool: " ++ "nope" } } ∧
    HTTPServer.mcpToolsRoute okClient ("nope" : String) (JVal.obj []) =
      { status := 404,
        body := HTTPServer.BridgeBody.errorMsg ("Tool \x27" ++ "nope" ++ "\x27 not found") } ∧
    HTTPServer.mcpBridgeRoute okClient ⟨"tools/call", some ⟨"nope", JVal.obj []⟩, none⟩ =
      { status := 404,
        body := HTTPServer.BridgeBody.errorMsg ("Tool \x27" ++ "nope" ++ "\x27 not found") }) :=
  ⟨by decide,
   C5_unknown_tool okClient (JId.num 5) ⟨"nope", JVal.obj []⟩ (JVal.obj []) none (by decide)⟩

/-- Claim C6 (amended): for a well-formed request whose method is outside
the dispatch table, the streamable dispatcher answers a -32601
method-not-found error with the id preserved, and the simple bridge does
the same except for its extra locally-handled method `bridge/status`;
the `/mcp/bridge` endpoint of the facade instead answers HTTP 500 with an
internal-error body `{error: "Unsupported method: ...", code: -32603}`
that echoes no id. -/
theorem C6_unknown_method :
    (∀ (client : UpstreamClient) (r : RpcRequest),
      r.method ∉ ["initialize", "tools/list", "tools/call"] →
      StreamableHTTPServer.handleRequest client r =
        { id := r.id, result := none,
          error := some { code := -32601, message := "Unknown method: " ++ r.method } }) ∧
    (∀ (cfg : SimpleHttpBridge.BridgeConfig) (upstream : Nat → Except String JVal) (rc : Nat)
        (i : JId) (meth : String) (ps : Option ToolCallParams),
      meth ∉ ["initialize", "tools/list", "tools/call", "bridge/status"] →
      SimpleHttpBridge.processRequest cfg upstream rc (.msg ⟨true, i, meth, ps⟩) =
        { stdout := [SimpleHttpBridge.sendError i ("Unknown method: " ++ meth) (-32601)],
          httpAttempts := 0, delays := [], retryCount := rc }) ∧
    (∀ (client : UpstreamClient) (req : HTTPServer.MCPRequest),
      req.method ∉ ["initialize", "tools/list", "tools/call"] →
      HTTPServer.mcpBridgeRoute client req =
        { status := 500,
          body := HTTPServer.BridgeBody.errorWithCode ("Unsupported method: " ++ req.method) (-32603) }) :=
  ⟨handleRequest_unknown, simpleBridge_unknown, mcpBridgeRoute_unknown⟩

theorem C6_unknown_method_witness :
    ("resources/list" : String) ∉ ["initialize", "tools/list", "tools/call"] ∧
    StreamableHTTPServer.handleRequest okClient ⟨JId.num 3, "resources/list", none⟩ =
      { id := JId.num 3, result := none,
        error := some { code := -32601, message := "Unknown method: " ++ "resources/list" } } ∧
    HTTPServer.mcpBridgeRoute okClient ⟨"resources/list", none, some (JId.num 3)⟩ =
      { status := 500,
        body := HTTPServer.BridgeBody.errorWithCode ("Unsupported method: " ++ "resources/list") (-32603) } :=
  ⟨by decide,
   C6_unknown_method.1 okClient ⟨JId.num 3, "resources/list", none⟩ (by decide),
   C6_unknown_method.2.2 okClient ⟨"resources/list", none, some (JId.num 3)⟩ (by decide)⟩

/-- Claim C6, original wording, is refuted at the method `bridge/status`,
which is outside the dispatch table {initialize, tools/list, tools/call}:
the `/mcp/bridge` endpoint of the facade answers HTTP 500 with an
internal-error (-32603) body and no id, not a method-not-found error, and
the simple bridge answers it with a success result. -/
theorem C6_counterexample :
    HTTPServer.mcpBridgeRoute okClient ⟨"bridge/status", none, some (JId.num 9)⟩ =
      { status := 500,
        body := HTTPServer.BridgeBody.errorWithCode "Unsupported method: bridge/status" (-32603) } ∧
    SimpleHttpBridge.processRequest cfg0 failingOracle 0
        (.msg ⟨true, JId.num 9, "bridge/status", none⟩) =
      { stdout := [{ id := JId.num 9, result := some (SimpleHttpBridge.statusResult cfg0 0), error := none }],
        httpAttempts := 0, delays := [], retryCount := 0 } :=
  ⟨rfl, rfl⟩

theorem makeHttpRequest_fail (upstream : Nat → Except String JVal) (msg : Nat → String)
    (hf : ∀ k, upstream k = .error (msg k)) (N d rc : Nat) :
    makeHttpRequest upstream N d rc =
      { result := .error ("Request failed after " ++ toString (N + 1) ++ " attempts: " ++ msg N),
        attempts := N + 1,
        delays := (List.range N).map (fun k => d * 2 ^ k),
        retryCount := rc } := by
  have h := retryLoopGo_fail upstream msg hf N d rc N 0 (by omega)
  rw [makeHttpRequest, h]
  simp [Nat.zero_add]

theorem makeStreamableRequest_fail (upstream : Nat → Except String JVal) (msg : Nat → String)
    (hf : ∀ k, upstream k = .error (msg k)) (N d rc : Nat) :
    makeStreamableRequest upstream N d rc =
      { result := .error ("Request failed after " ++ toString (N + 1) ++ " attempts: " ++ msg N),
        attempts := N + 1,
        delays := (List.range N).map (fun k => d * 2 ^ k),
        retryCount := rc } := by
  have h := retryLoopGo_fail upstream msg hf N d rc N 0 (by omega)
  rw [makeStreamableRequest, h]
  simp [Nat.zero_add]

/-- Claim C7: against an upstream failing on every attempt, each bridge
retry loop makes exactly maxRetryAttempts + 1 HTTP attempts and then the
bridge emits a single -32603 error line whose message embeds the attempt
count ("Request failed after N+1 attempts"). -/
theorem C7_retry_exhaustion (upstream : Nat → Except String JVal) (msg : Nat → String)
    (hf : ∀ k, upstream k = .error (msg k)) (cfg : SimpleHttpBridge.BridgeConfig)
    (N d rc : Nat) (i : JId) (meth : String) (ps : Option ToolCallParams) :
    (makeHttpRequest upstream N d rc).attempts = N + 1 ∧
    (makeHttpRequest upstream N d rc).result =
      .error ("Request failed after " ++ toString (N + 1) ++ " attempts: " ++ msg N) ∧
    (makeStreamableRequest upstream N d rc).attempts = N + 1 ∧
    SimpleHttpBridge.processRequest cfg upstream rc (.msg ⟨true, i, "tools/list", ps⟩) =
      { stdout := [SimpleHttpBridge.sendError i
          ("Failed to get tools: " ++ ("Request failed after " ++
            toString (cfg.maxRetryAttempts + 1) ++ " attempts: " ++ msg cfg.maxRetryAttempts))],
        httpAttempts := cfg.maxRetryAttempts + 1,
        delays := (List.range cfg.maxRetryAttempts).map (fun k => cfg.reconnectDelay * 2 ^ k),
        retryCount := rc } ∧
    StreamableBridge.processRequest cfg upstream rc (.msg ⟨true, i, meth, ps⟩) =
      { stdout := [StreamableBridge.errorEnvelope i
          ("Streamable server request failed: " ++ ("Request failed after " ++
            toString (cfg.maxRetryAttempts + 1) ++ " attempts: " ++ msg cfg.maxRetryAttempts))],
        httpAttempts := cfg.maxRetryAttempts + 1,
        delays := (List.range cfg.maxRetryAttempts).map (fun k => cfg.reconnectDelay * 2 ^ k),
        retryCount := rc } := by
  refine ⟨by rw [makeHttpRequest_fail upstream msg hf], by rw [makeHttpRequest_fail upstream msg hf],
          by rw [makeStreamableRequest_fail upstream msg hf], ?_, ?_⟩
  · simp only [SimpleHttpBridge.processRequest, if_true,
      makeHttpRequest_fail upstream msg hf cfg.maxRetryAttempts cfg.reconnectDelay rc]
  · simp only [StreamableBridge.processRequest, if_true,
      makeStreamableRequest_fail upstream msg hf cfg.maxRetryAttempts cfg.reconnectDelay rc]

theorem C7_retry_exhaustion_witness :
    (∀ k, failingOracle k = .error "connect ECONNREFUSED") ∧
    (makeHttpRequest failingOracle 3 2000 0).attempts = 3 + 1 ∧
    SimpleHttpBridge.processRequest cfg0 failingOracle 0
        (.msg ⟨true, JId.num 2, "tools/list", none⟩) =
      { stdout := [SimpleHttpBridge.sendError (JId.num 2)
          ("Failed to get tools: " ++ ("Request failed after " ++ toString (cfg0.maxRetryAttempts + 1) ++
            " attempts: " ++ "connect ECONNREFUSED"))],
        httpAttempts := cfg0.maxRetryAttempts + 1,
        delays := (List.range cfg0.maxRetryAttempts).map (fun k => cfg0.reconnectDelay * 2 ^ k),
        retryCount := 0 } :=
  ⟨fun _ => rfl,
   (C7_retry_exhaustion failingOracle (fun _ => "connect ECONNREFUSED") (fun _ => rfl)
      cfg0 3 2000 0 (JId.num 2) "tools/list" none).1,
   (C7_retry_exhaustion failingOracle (fun _ => "connect ECONNREFUSED") (fun _ => rfl)
      cfg0 3 2000 0 (JId.num 2) "tools/list" none).2.2.2.1⟩

/-- Claim C8: in both bridge retry loops, whenever a k-th backoff delay is
slept at all, it equals reconnectDelay * 2 ^ k (0-indexed, no jitter). -/
theorem C8_backoff_growth (upstream : Nat → Except String JVal) (N d rc k : Nat) :
    (∀ h : k < (makeHttpRequest upstream N d rc).delays.length,
      (makeHttpRequest upstream N d rc).delays.get ⟨k, h⟩ = d * 2 ^ k) ∧
    (∀ h : k < (makeStreamableRequest upstream N d rc).delays.length,
      (makeStreamableRequest upstream N d rc).delays.get ⟨k, h⟩ = d * 2 ^ k) := by
  constructor
  · intro h
    have hg := List.get?_eq_get h
    have := retryLoopGo_delays_get? upstream N d rc (N + 1) 0 k _ hg
    rw [Nat.zero_add] at this
    exact this
  · intro h
    have hg := List.get?_eq_get h
    have := retryLoopGo_delays_get? upstream N d rc (N + 1) 0 k _ hg
    rw [Nat.zero_add] at this
    exact this

theorem C8_backoff_growth_witness :
    (makeHttpRequest failingOracle 3 100 0).delays = [100, 200, 400] ∧
    (makeHttpRequest failingOracle 3 100 0).delays.get ⟨1, by decide⟩ = 100 * 2 ^ 1 :=
  ⟨rfl, (C8_backoff_growth failingOracle 3 100 0 1).1 (by decide)⟩

theorem simpleBridge_rc_zero (cfg : SimpleHttpBridge.BridgeConfig)
    (upstream : Nat → Except String JVal) (input : BridgeIn) :
    (SimpleHttpBridge.processRequest cfg upstream 0 input).retryCount = 0 := by
  cases input with
  | unparsable => rfl
  | msg m =>
    obtain ⟨hasId, i, meth, ps⟩ := m
    cases hasId with
    | false => rfl
    | true =>
      simp only [SimpleHttpBridge.processRequest, if_true]
      split <;> (try split) <;> (try split) <;>
        first
          | rfl
          | exact retryLoopGo_retryCount_zero upstream cfg.maxRetryAttempts cfg.reconnectDelay
              (cfg.maxRetryAttempts + 1) 0

theorem streamableBridge_rc_zero (cfg : SimpleHttpBridge.BridgeConfig)
    (upstream : Nat → Except String JVal) (input : BridgeIn) :
    (StreamableBridge.processRequest cfg upstream 0 input).retryCount = 0 := by
  cases input with
  | unparsable => rfl
  | msg m =>
    obtain ⟨hasId, i, meth, ps⟩ := m
    cases hasId with
    | false => rfl
    | true =>
      simp only [StreamableBridge.processRequest, if_true]
      split <;>
        exact retryLoopGo_retryCount_zero upstream cfg.maxRetryAttempts cfg.reconnectDelay
          (cfg.maxRetryAttempts + 1) 0

/-- Claim C9: the session variable `retryCount` is invariantly 0 — both
bridges leave a zero counter at zero on every possible input, the backoff
delays do not depend on it, and `bridge/status` therefore always reports
`retry_count: 0`. -/
theorem C9_retry_count_invariant :
    ∀ (cfg : SimpleHttpBridge.BridgeConfig) (upstream : Nat → Except String JVal)
      (input : BridgeIn) (N d rc rc2 : Nat) (i : JId),
      (SimpleHttpBridge.processRequest cfg upstream 0 input).retryCount = 0 ∧
      (StreamableBridge.processRequest cfg upstream 0 input).retryCount = 0 ∧
      (makeHttpRequest upstream N d rc).delays = (makeHttpRequest upstream N d rc2).delays ∧
      (makeStreamableRequest upstream N d rc).delays = (makeStreamableRequest upstream N d rc2).delays ∧
      SimpleHttpBridge.processRequest cfg upstream 0 (.msg ⟨true, i, "bridge/status", none⟩) =
        { stdout := [{ id := i, result := some (SimpleHttpBridge.statusResult cfg 0), error := none }],
          httpAttempts := 0, delays := [], retryCount := 0 } ∧
      SimpleHttpBridge.statusResult cfg 0 =
        JVal.obj
          [ ("server_url", JVal.str cfg.serverUrl),
            ("retry_count", JVal.num 0),
            ("max_retries", JVal.num cfg.maxRetryAttempts),
            ("reconnect_delay", JVal.num cfg.reconnectDelay) ] :=
  fun cfg upstream input N d rc rc2 _i =>
    ⟨simpleBridge_rc_zero cfg upstream input,
     streamableBridge_rc_zero cfg upstream input,
     retryLoopGo_delays_rc_irrel upstream N d (N + 1) 0 rc rc2,
     retryLoopGo_delays_rc_irrel upstream N d (N + 1) 0 rc rc2,
     rfl, rfl⟩

/-- Claim C10 (amended): on an upstream success payload, `getCompanyOfficers`
and `getCompanyFilings` return the `items` field of the payload when the
property read yields a truthy value, and the empty list when the property
is absent or falsy (e.g. null); a null payload makes the property read
itself throw, which the catch wraps into the error path. `searchCompanies`
and `getCompanyProfile` return the parsed payload unchanged. -/
theorem C10_items_extraction
    (get1 get3 : Option JVal → Except String JVal)
    (get2 get4 : Option JVal → Option JVal → Except String JVal)
    (cn ipp q : Option JVal) (p : JVal) (v : JVal) :
    (get1 cn = .ok p → p.member "items" = .ok (some v) → v.truthy = true →
      CompaniesHouseService.getCompanyOfficers get1 cn = .ok v) ∧
    (get1 cn = .ok p → p.member "items" = .ok (some v) → v.truthy = false →
      CompaniesHouseService.getCompanyOfficers get1 cn = .ok (JVal.arr [])) ∧
    (get1 cn = .ok p → p.member "items" = .ok none →
      CompaniesHouseService.getCompanyOfficers get1 cn = .ok (JVal.arr [])) ∧
    (get2 cn ipp = .ok p → p.member "items" = .ok (some v) → v.truthy = true →
      CompaniesHouseService.getCompanyFilings get2 cn ipp = .ok v) ∧
    (get2 cn ipp = .ok p → p.member "items" = .ok (some v) → v.truthy = false →
      CompaniesHouseService.getCompanyFilings get2 cn ipp = .ok (JVal.arr [])) ∧
    (get2 cn ipp = .ok p → p.member "items" = .ok none →
      CompaniesHouseService.getCompanyFilings get2 cn ipp = .ok (JVal.arr [])) ∧
    (get4 q ipp = .ok p → CompaniesHouseService.searchCompanies get4 q ipp = .ok p) ∧
    (get3 cn = .ok p → CompaniesHouseService.getCompanyProfile get3 cn = .ok p) := by
  refine ⟨?_, ?_, ?_, ?_, ?_, ?_, ?_, ?_⟩
  · intro h1 h2 h3
    simp [CompaniesHouseService.getCompanyOfficers, h1, h2, jsOr, h3]
  · intro h1 h2 h3
    simp [CompaniesHouseService.getCompanyOfficers, h1, h2, jsOr, h3]
  · intro h1 h2
    simp [CompaniesHouseService.getCompanyOfficers, h1, h2, jsOr]
  · intro h1 h2 h3
    simp [CompaniesHouseService.getCompanyFilings, h1, h2, jsOr, h3]
  · intro h1 h2 h3
    simp [CompaniesHouseService.getCompanyFilings, h1, h2, jsOr, h3]
  · intro h1 h2
    simp [CompaniesHouseService.getCompanyFilings, h1, h2, jsOr]
  · intro h1
    simp [CompaniesHouseService.searchCompanies, h1]
  · intro h1
    simp [CompaniesHouseService.getCompanyProfile, h1]

theorem C10_items_extraction_witness :
    ((fun _ => .ok (JVal.obj [("items", JVal.arr [JVal.str "officer1"])])) :
        Option JVal → Except String JVal) (some (JVal.str "00000006")) =
      .ok (JVal.obj [("items", JVal.arr [JVal.str "officer1"])]) ∧
    (JVal.obj [("items", JVal.arr [JVal.str "officer1"])]).member "items" =
      .ok (some (JVal.arr [JVal.str "officer1"])) ∧
    (JVal.arr [JVal.str "officer1"]).truthy = true ∧
    CompaniesHouseService.getCompanyOfficers
        (fun _ => .ok (JVal.obj [("items", JVal.arr [JVal.str "officer1"])]))
        (some (JVal.str "00000006")) =
      .ok (JVal.arr [JVal.str "officer1"]) :=
  ⟨rfl, rfl, rfl,
   (C10_items_extraction
      (fun _ => .ok (JVal.obj [("items", JVal.arr [JVal.str "officer1"])]))
      (fun _ => .ok (JVal.obj []))
      (fun _ _ => .ok (JVal.obj [])) (fun _ _ => .ok (JVal.obj []))
      (some (JVal.str "00000006")) none none
      (JVal.obj [("items", JVal.arr [JVal.str "officer1"])])
      (JVal.arr [JVal.str "officer1"])).1 rfl rfl rfl⟩

/-- Claim C10, original wording, is refuted: the success payload
{"items": null} has the `items` field present, yet `getCompanyOfficers`
returns the empty list instead of the value of the field (the JS `|| []`
replaces any falsy value); and on the success payload `null` (lacking
`items`) the call fails instead of returning the empty list, because the
property read throws. -/
theorem C10_counterexample :
    CompaniesHouseService.getCompanyOfficers
        (fun _ => .ok (JVal.obj [("items", JVal.null)])) (some (JVal.str "00000006")) =
      .ok (JVal.arr []) ∧
    (JVal.obj [("items", JVal.null)]).member "items" = .ok (some JVal.null) ∧
    ¬ (JVal.arr ([] : List JVal) = JVal.null) ∧
    CompaniesHouseService.getCompanyOfficers
        (fun _ => .ok JVal.null) (some (JVal.str "00000006")) =
      .error ("Failed to get company officers: TypeError: Cannot read properties of null (reading \x27items\x27)") :=
  ⟨rfl, rfl, fun h => JVal.noConfusion h, rfl⟩
